import Mathlib

/-!
Verification of the event-sourced notification pipeline of the
Amused product-management backend.

The definitions below are a shallow embedding of the TypeScript/SQL
sources:
  * `backend/src/db.ts`            — events table schema and the
    `notify_event` trigger (duplicate suppression + `pg_notify`);
  * `backend/src/routes/products.ts` — `emitEvent` and the POST/PUT/DELETE
    product route handlers;
  * `backend/src/services/stockService.ts` — `checkAndEmitLowStockWarning`;
  * `backend/src/sse/events.ts`    — SSE client registry, heartbeat,
    stream endpoint and the notification broadcaster.

Machine-level effects (network writes, thrown exceptions, statement
failures) are made explicit: fallible inserts take a Boolean failure
oracle, thrown exceptions become `Except`, and writes to a client
transport become explicit entries in a result list.
-/

namespace Amused

/-! ### JSON values

Event payloads are `jsonb` documents.  We embed the fragment of JSON the
pipeline actually manipulates. -/

inductive JVal where
  | jnull : JVal
  | jbool : Bool → JVal
  | jnum : Int → JVal
  | jstr : String → JVal
  | jobj : List (String × JVal) → JVal

/-- Field access `v.k` on a JSON object (`undefined`/absent ↦ `jnull`). -/
def JVal.lookup : JVal → String → JVal
  | .jobj fs, k => ((fs.find? (fun p => p.1 == k)).map Prod.snd).getD .jnull
  | _, _ => .jnull

/-- JSON encoding of a nullable integer column. -/
def optNatJ : Option Nat → JVal
  | some n => .jnum (Int.ofNat n)
  | none => .jnull

/-! ### Event Store (`events` table, db.ts `initSchema`)

Schema: `id bigserial primary key, type text, seller_id text,
product_id integer (nullable), payload jsonb, created_at timestamptz`.
No foreign key on `product_id` in the schema `initSchema` creates.
Timestamps are integers (seconds). -/

structure EventRow where
  id : Nat
  type : String
  sellerId : String
  productId : Option Nat
  payload : JVal
  createdAt : Int

/-- SQL equality `product_id = NEW.product_id`: comparison with NULL is
never TRUE (`NULL = NULL` is NULL). -/
def sqlEqOpt : Option Nat → Option Nat → Bool
  | some a, some b => a == b
  | _, _ => false

/-- One row of the dedup query in the `notify_event` trigger:
`type = NEW.type and product_id = NEW.product_id and id != NEW.id and
created_at > (now() - interval '5 seconds')`. -/
def isSimilarEvent (new : EventRow) (now : Int) (e : EventRow) : Bool :=
  e.type == new.type && sqlEqOpt e.productId new.productId &&
    e.id != new.id && decide (e.createdAt > now - 5)

/-- The trigger's publication decision: `pg_notify` fires iff the dedup
query (over the table as of the insert, the new row excluded via
`id != NEW.id`) finds no similar event. -/
def notifyDecision (rows : List EventRow) (new : EventRow) (now : Int) : Bool :=
  ! rows.any (isSimilarEvent new now)

structure EventStore where
  rows : List EventRow
  nextId : Nat

/-- `INSERT INTO events (type, seller_id, product_id, payload) VALUES …`
followed by the AFTER INSERT trigger.  Returns the new store and whether
the trigger published a notification on `events_channel`. -/
def insertEvent (st : EventStore) (type sellerId : String) (productId : Option Nat)
    (payload : JVal) (now : Int) : EventStore × Bool :=
  let row : EventRow := ⟨st.nextId, type, sellerId, productId, payload, now⟩
  let rows' := st.rows ++ [row]
  (⟨rows', st.nextId + 1⟩, notifyDecision rows' row now)

/-! ### Notification payload (`row_to_json(NEW)` on `events_channel`) -/

structure NotifPayload where
  id : Nat
  type : String
  seller_id : String
  product_id : Option Nat
  payload : JVal
  created_at : Int

def EventRow.toNotif (e : EventRow) : NotifPayload :=
  ⟨e.id, e.type, e.sellerId, e.productId, e.payload, e.createdAt⟩

/-- The JSON document `row_to_json(NEW)` serialises. -/
def rowJson (p : NotifPayload) : JVal :=
  .jobj [("id", .jnum (Int.ofNat p.id)), ("type", .jstr p.type),
    ("seller_id", .jstr p.seller_id), ("product_id", optNatJ p.product_id),
    ("payload", p.payload), ("created_at", .jnum p.created_at)]

/-! ### Products and catalog routes (`routes/products.ts`)

Each `pool.query` statement runs in its own autocommit transaction; only
the DELETE handler opens an explicit BEGIN/COMMIT.  Columns not touched
by the event pipeline (`created_at`, `updated_at`) are omitted. -/

structure Product where
  id : Nat
  sellerId : String
  name : String
  description : String
  price : Int
  quantity : Int
  category : String
deriving DecidableEq

def productJson (p : Product) : JVal :=
  .jobj [("id", .jnum (Int.ofNat p.id)), ("seller_id", .jstr p.sellerId),
    ("name", .jstr p.name), ("description", .jstr p.description),
    ("price", .jnum p.price), ("quantity", .jnum p.quantity),
    ("category", .jstr p.category)]

/-- Database state touched by the product routes.  `salesHistory` and
`aiRecommendations` are kept only as the `product_id` columns the DELETE
handler filters on. -/
structure DB where
  products : List Product
  nextProductId : Nat
  events : EventStore
  salesHistory : List Nat
  aiRecommendations : List Nat

/-- `emitEvent` (products.ts:22-31): INSERT into `events` wrapped in
`try/catch` that logs and swallows any failure.  `insertFails` is the
oracle for the INSERT statement failing; on failure the store is
untouched and no error escapes. -/
def emitEvent (insertFails : Bool) (db : DB) (type sellerId : String)
    (productId : Option Nat) (payload : JVal) (now : Int) : DB :=
  if insertFails then db
  else { db with events := (insertEvent db.events type sellerId productId payload now).1 }

/-- `config.LOW_STOCK_THRESHOLD` (default 5). -/
def LOW_STOCK_THRESHOLD : Int := 5

/-- `checkAndEmitLowStockWarning` (stockService): if
`quantity <= threshold`, INSERT a `LowStockWarning` event whose payload
carries the product fields (incl. `current_quantity`); the `catch`
block logs and RETHROWS, so a failure escapes to the caller as
`Except.error`. -/
def checkAndEmitLowStockWarning (insertFails : Bool) (db : DB) (product : Product)
    (sellerId : String) (now : Int) : Except String DB :=
  if product.quantity ≤ LOW_STOCK_THRESHOLD then
    if insertFails then .error "low-stock event insert failed"
    else
      let payload : JVal := .jobj [("id", .jnum (Int.ofNat product.id)),
        ("name", .jstr product.name), ("product_name", .jstr product.name),
        ("current_quantity", .jnum product.quantity),
        ("threshold", .jnum LOW_STOCK_THRESHOLD),
        ("category", .jstr product.category), ("price", .jnum product.price)]
      .ok { db with
        events := (insertEvent db.events "LowStockWarning" sellerId
          (some product.id) payload now).1 }
  else .ok db

structure CreateInput where
  name : String
  description : Option String
  price : Int
  quantity : Int
  category : String
deriving DecidableEq

inductive RouteResult where
  | created : Product → RouteResult
  | updated : Product → RouteResult
  | deleted : Nat → RouteResult
  | errorResp : Nat → String → RouteResult
deriving DecidableEq

/-- POST /products: INSERT the product (autocommitted), `emitEvent
ProductCreated` (failure swallowed), then `checkAndEmitLowStockWarning`;
if the latter throws, the route's `catch` forwards the error
(`next(error)` → 500 response) but the committed INSERTs stand. -/
def createProductRoute (eventFails lowStockFails : Bool) (db : DB) (sellerId : String)
    (input : CreateInput) (now : Int) : DB × RouteResult :=
  let product : Product := ⟨db.nextProductId, sellerId, input.name,
    input.description.getD "", input.price, input.quantity, input.category⟩
  let db1 : DB := { db with
                    products := db.products ++ [product],
                    nextProductId := db.nextProductId + 1 }
  let db2 := emitEvent eventFails db1 "ProductCreated" sellerId (some product.id)
    (.jobj [("product", productJson product)]) now
  match checkAndEmitLowStockWarning lowStockFails db2 product sellerId now with
  | .ok db3 => (db3, .created product)
  | .error _ => (db2, .errorResp 500 "Internal server error")

structure UpdateInput where
  name : Option String
  description : Option String
  price : Option Int
  quantity : Option Int
  category : Option String

def UpdateInput.isEmpty (u : UpdateInput) : Bool :=
  u.name.isNone && u.description.isNone && u.price.isNone &&
    u.quantity.isNone && u.category.isNone

def applyUpdate (u : UpdateInput) (p : Product) : Product :=
  { p with
    name := u.name.getD p.name,
    description := u.description.getD p.description,
    price := u.price.getD p.price,
    quantity := u.quantity.getD p.quantity,
    category := u.category.getD p.category }

/-- PUT /products/:id: UPDATE … WHERE id AND seller_id (autocommitted;
404 when no row matches), `emitEvent ProductUpdated` (swallowed), then
`checkAndEmitLowStockWarning` (a throw fails the request). -/
def updateProductRoute (eventFails lowStockFails : Bool) (db : DB) (sellerId : String)
    (id : Nat) (u : UpdateInput) (now : Int) : DB × RouteResult :=
  if u.isEmpty then (db, .errorResp 400 "No fields to update")
  else
    match db.products.find? (fun p => p.id == id && p.sellerId == sellerId) with
    | none => (db, .errorResp 404 "Product not found or access denied")
    | some p =>
      let p' := applyUpdate u p
      let db1 : DB := { db with
                        products := db.products.map
                          (fun q => if q.id == id && q.sellerId == sellerId then p' else q) }
      let db2 := emitEvent eventFails db1 "ProductUpdated" sellerId (some p'.id)
        (.jobj [("product", productJson p')]) now
      match checkAndEmitLowStockWarning lowStockFails db2 p' sellerId now with
      | .ok db3 => (db3, .updated p')
      | .error _ => (db2, .errorResp 500 "Internal server error")

/-- DELETE /products/:id: inside BEGIN…COMMIT, delete the product's
events / sales_history / ai_recommendations rows, then the product
itself (ROLLBACK + 404 when no row matches); after COMMIT, `emitEvent
ProductDeleted` runs as its own statement outside the transaction. -/
def deleteProductRoute (eventFails : Bool) (db : DB) (sellerId : String)
    (id : Nat) (now : Int) : DB × RouteResult :=
  let matched := db.products.filter (fun p => p.id == id && p.sellerId == sellerId)
  if matched.isEmpty then (db, .errorResp 404 "Product not found or access denied")
  else
    let db1 : DB := { db with
                      products := db.products.filter
                        (fun p => !(p.id == id && p.sellerId == sellerId)),
                      events := { db.events with
                                  rows := db.events.rows.filter
                                    (fun e => !(sqlEqOpt e.productId (some id))) },
                      salesHistory := db.salesHistory.filter (fun q => !(q == id)),
                      aiRecommendations := db.aiRecommendations.filter (fun q => !(q == id)) }
    let db2 := emitEvent eventFails db1 "ProductDeleted" sellerId (some id)
      (.jobj [("productId", .jnum (Int.ofNat id))]) now
    (db2, .deleted id)

/-! ### SSE subscription registry and broadcaster (`sse/events.ts`)

A `Client` record keeps the fields the pipeline reads (`res` and the
timer handle are implicit: writes to `res` become explicit outputs, the
timer is the `heartbeatTick` step).  Times are in milliseconds. -/

structure Client where
  id : Nat
  sellerId : String
  lastActivity : Int
deriving DecidableEq

def HEARTBEAT_INTERVAL : Int := 15000
def CLIENT_TIMEOUT : Int := 60000

/-- `removeClient`: `findIndex` by `id` then `splice(idx, 1)` — erase the
first registry entry with the same id (also clears that entry's timer);
a no-op when the id is absent. -/
def removeClient (clients : List Client) (cl : Client) : List Client :=
  clients.eraseP (fun c => c.id == cl.id)

/-- A side effect on a client transport.  The source's heartbeat and
broadcaster only ever `res.write`; nothing in `sse/events.ts` calls
`res.end`/`res.destroy`, so `closeTransport` is never produced. -/
inductive Action where
  | writePing : Nat → Action
  | closeTransport : Nat → Action
deriving DecidableEq

/-- One firing of the `setInterval` callback in `setupHeartbeat`:
if `now - lastActivity > CLIENT_TIMEOUT`, remove the client and return;
otherwise write a ping (refreshing `lastActivity` on success, removing
the client when the write throws).  `writeOk` is the oracle for the
`res.write` call. -/
def heartbeatTick (writeOk : Bool) (now : Int) (clients : List Client) (c : Client) :
    List Client × List Action :=
  if now - c.lastActivity > CLIENT_TIMEOUT then
    (removeClient clients c, [])
  else if writeOk then
    (clients.map (fun x => if x.id == c.id then { x with lastActivity := now } else x),
      [.writePing c.id])
  else
    (removeClient clients c, [])

/-- JavaScript `a || b` on strings: the empty string is falsy. -/
def jsOrStr (a : Option String) (b : String) : String :=
  match a with
  | some s => if s == "" then b else s
  | none => b

/-- `req.header('x-seller-id') || req.query.seller_id || 'demo-seller'`. -/
def resolveSellerId (header query : Option String) : String :=
  jsOrStr header (jsOrStr query "demo-seller")

structure Registry where
  clients : List Client
  nextClientId : Nat

/-- GET /events/stream: resolve the seller id, take `id = nextClientId++`,
push the new client onto the registry and start its heartbeat.  There is
no rejection path; every request is registered. -/
def openStream (reg : Registry) (header query : Option String) (now : Int) :
    Registry × Client :=
  let sellerId := resolveSellerId header query
  let c : Client := ⟨reg.nextClientId, sellerId, now⟩
  ({ clients := reg.clients ++ [c], nextClientId := reg.nextClientId + 1 }, c)

/-- Message formatting in the broadcaster's notification handler.
For `LowStockWarning` the payload is reshaped into a nested `product`
sub-document (the event name falls back from the absent `payload.event`
to `payload.type`); every other type is passed through as the parsed
`row_to_json` document under its own event name. -/
def formatFrame (nowIso : String) (p : NotifPayload) : String × JVal :=
  if p.type == "LowStockWarning" then
    ("LowStockWarning",
      .jobj [("type", .jstr "LowStockWarning"), ("timestamp", .jstr nowIso),
        ("product", .jobj [("id", optNatJ p.product_id),
          ("name", p.payload.lookup "name"), ("price", p.payload.lookup "price"),
          ("quantity", p.payload.lookup "current_quantity"),
          ("category", p.payload.lookup "category")])])
  else
    (p.type, rowJson p)

/-- The broadcaster's `notification` handler: filter the registry on
`c.sellerId === payload.seller_id`, write the formatted frame to each
match (refreshing `lastActivity` on success), collect clients whose
write threw into `deadClients`, and `removeClient` each of those after
the fan-out pass.  Returns the new registry and the list of successful
writes `(client id, frame)`. -/
def handleNotification (writeOk : Nat → Bool) (nowIso : String) (now : Int)
    (clients : List Client) (p : NotifPayload) :
    List Client × List (Nat × (String × JVal)) :=
  let targets := clients.filter (fun c => c.sellerId == p.seller_id)
  let sent := (targets.filter (fun c => writeOk c.id)).map
    (fun c => (c.id, formatFrame nowIso p))
  let dead := targets.filter (fun c => !writeOk c.id)
  let updated := clients.map
    (fun c => if c.sellerId == p.seller_id && writeOk c.id
              then { c with lastActivity := now } else c)
  (dead.foldl removeClient updated, sent)

/-- Sequential processing of a stream of channel notifications (the
listener receives them one at a time); each successful write is recorded
with the payload it delivered. -/
def dispatchAll (writeOk : Nat → Bool) (nowIso : String) (now : Int) :
    List Client → List NotifPayload → List Client × List (Nat × NotifPayload)
  | cls, [] => (cls, [])
  | cls, p :: ps =>
    let r := handleNotification writeOk nowIso now cls p
    let rest := dispatchAll writeOk nowIso now r.1 ps
    (rest.1, r.2.map (fun w => (w.1, p)) ++ rest.2)

/-! ### Helper lemmas -/

lemma sqlEqOpt_none_right (a : Option Nat) : sqlEqOpt a none = false := by
  cases a <;> rfl

lemma sqlEqOpt_some_right_iff (a : Option Nat) (n : Nat) :
    sqlEqOpt a (some n) = true ↔ a = some n := by
  cases a with
  | none => simp [sqlEqOpt]
  | some m => simp [sqlEqOpt]

lemma isSimilarEvent_eq_true_iff (new : EventRow) (now : Int) (e : EventRow) :
    isSimilarEvent new now e = true ↔
      e.type = new.type ∧ sqlEqOpt e.productId new.productId = true ∧
        e.id ≠ new.id ∧ e.createdAt > now - 5 := by
  simp [isSimilarEvent, and_assoc]

/-! ### Claim theorems -/

/-- C9: an event appended with a NULL `product_id` is never suppressed by
the dedup query: SQL equality `product_id = NEW.product_id` is never TRUE
when `NEW.product_id` is NULL, so the trigger always publishes. -/
theorem C9_null_productId_always_published (st : EventStore) (t s : String)
    (pl : JVal) (now : Int) :
    (insertEvent st t s none pl now).2 = true := by
  simp only [insertEvent, notifyDecision, Bool.not_eq_true']
  rw [List.any_eq_false]
  intro e _
  simp [isSimilarEvent, sqlEqOpt_none_right]

/-- C2: two events with identical type and identical non-null productId
appended within 5 seconds of each other produce exactly one publication
(the second is suppressed by the trigger's dedup query) while both rows
persist in the Event Store. -/
theorem C2_dedup_window (st0 : EventStore) (t s1 s2 : String) (pid : Nat)
    (pl1 pl2 : JVal) (t1 t2 : Int)
    (hfresh : ∀ e ∈ st0.rows,
      ¬(e.type = t ∧ e.productId = some pid ∧ e.createdAt > t1 - 5))
    (horder : t1 ≤ t2) (hwin : t2 - t1 < 5) :
    (insertEvent st0 t s1 (some pid) pl1 t1).2 = true ∧
    (insertEvent (insertEvent st0 t s1 (some pid) pl1 t1).1 t s2 (some pid) pl2 t2).2
      = false ∧
    (insertEvent (insertEvent st0 t s1 (some pid) pl1 t1).1 t s2 (some pid) pl2 t2).1.rows.length
      = st0.rows.length + 2 := by
  refine ⟨?_, ?_, ?_⟩
  · simp only [insertEvent, notifyDecision, Bool.not_eq_true']
    rw [List.any_eq_false]
    intro e he
    rcases List.mem_append.mp he with he | he
    · intro hsim
      rcases (isSimilarEvent_eq_true_iff _ _ _).mp hsim with ⟨h1, h2, _, h4⟩
      exact hfresh e he ⟨h1, (sqlEqOpt_some_right_iff _ _).mp h2, h4⟩
    · rcases List.mem_singleton.mp he with rfl
      intro hsim
      rcases (isSimilarEvent_eq_true_iff _ _ _).mp hsim with ⟨_, _, h3, _⟩
      exact h3 rfl
  · simp only [insertEvent, notifyDecision, Bool.not_eq_false']
    rw [List.any_eq_true]
    refine ⟨⟨st0.nextId, t, s1, some pid, pl1, t1⟩, ?_, ?_⟩
    · exact List.mem_append.mpr (Or.inl (List.mem_append.mpr (Or.inr (List.mem_singleton.mpr rfl))))
    · refine (isSimilarEvent_eq_true_iff _ _ _).mpr ⟨rfl, ?_, ?_, ?_⟩
      · simp [sqlEqOpt]
      · exact Nat.ne_of_lt (Nat.lt_succ_self _)
      · show t1 > t2 - 5
        omega
  · simp [insertEvent]

/-- Witness for C2 at scenario C's shape: two `LowStockWarning` events for
product 7 at times 0 and 2 into an empty store. -/
theorem C2_dedup_window_witness :
    (∀ e ∈ (⟨[], 1⟩ : EventStore).rows,
      ¬(e.type = "LowStockWarning" ∧ e.productId = some 7 ∧ e.createdAt > 0 - 5)) ∧
    (0 : Int) ≤ 2 ∧ (2 : Int) - 0 < 5 ∧
    ((insertEvent ⟨[], 1⟩ "LowStockWarning" "s1" (some 7) .jnull 0).2 = true ∧
     (insertEvent (insertEvent ⟨[], 1⟩ "LowStockWarning" "s1" (some 7) .jnull 0).1
        "LowStockWarning" "s1" (some 7) .jnull 2).2 = false ∧
     (insertEvent (insertEvent ⟨[], 1⟩ "LowStockWarning" "s1" (some 7) .jnull 0).1
        "LowStockWarning" "s1" (some 7) .jnull 2).1.rows.length = ([] : List EventRow).length + 2) :=
  ⟨by simp, by norm_num, by norm_num,
    C2_dedup_window ⟨[], 1⟩ "LowStockWarning" "s1" "s1" 7 .jnull .jnull 0 2
      (by simp) (by norm_num) (by norm_num)⟩

/-- C1 fails on the code: with the `ProductCreated` INSERT failing
(oracle `true`), POST /products still answers 201 with the product
committed, and the Event Store stays empty — `emitEvent` runs outside
any transaction and swallows the failure, so the mutation is neither
aborted nor accompanied by its event. -/
theorem C1_counterexample :
    (createProductRoute true false ⟨[], 1, ⟨[], 1⟩, [], []⟩ "s1"
        ⟨"Widget", none, 10, 10, "Other"⟩ 0).2
      = .created ⟨1, "s1", "Widget", "", 10, 10, "Other"⟩ ∧
    (createProductRoute true false ⟨[], 1, ⟨[], 1⟩, [], []⟩ "s1"
        ⟨"Widget", none, 10, 10, "Other"⟩ 0).1.products
      = [⟨1, "s1", "Widget", "", 10, 10, "Other"⟩] ∧
    (createProductRoute true false ⟨[], 1, ⟨[], 1⟩, [], []⟩ "s1"
        ⟨"Widget", none, 10, 10, "Other"⟩ 0).1.events.rows = [] :=
  ⟨rfl, rfl, rfl⟩

/-- C1 amended: for create, update and delete alike, the primary
lifecycle event is inserted by `emitEvent` in a separate autocommitted
statement after the mutation (for DELETE, after COMMIT), and an Event
Store insert failure is logged and swallowed: the mutation completes
successfully and simply lacks its event. -/
theorem C1_amended_event_failure_swallowed (db : DB) (s : String)
    (input : CreateInput) (pid uid : Nat) (u : UpdateInput) (pu : Product) (now : Int)
    (hq : input.quantity > LOW_STOCK_THRESHOLD)
    (hmatch : (db.products.filter (fun p => p.id == pid && p.sellerId == s)).isEmpty
      = false)
    (hne : u.isEmpty = false)
    (hfind : db.products.find? (fun q => q.id == uid && q.sellerId == s) = some pu)
    (huq : (applyUpdate u pu).quantity > LOW_STOCK_THRESHOLD) :
    ((createProductRoute true false db s input now).2 =
        .created ⟨db.nextProductId, s, input.name, input.description.getD "",
          input.price, input.quantity, input.category⟩ ∧
      (createProductRoute true false db s input now).1.products =
        db.products ++ [⟨db.nextProductId, s, input.name, input.description.getD "",
          input.price, input.quantity, input.category⟩] ∧
      (createProductRoute true false db s input now).1.events = db.events) ∧
    ((updateProductRoute true false db s uid u now).2 = .updated (applyUpdate u pu) ∧
      (updateProductRoute true false db s uid u now).1.products =
        db.products.map
          (fun q => if q.id == uid && q.sellerId == s then applyUpdate u pu else q) ∧
      (updateProductRoute true false db s uid u now).1.events = db.events) ∧
    ((deleteProductRoute true db s pid now).2 = .deleted pid ∧
      (deleteProductRoute true db s pid now).1.products =
        db.products.filter (fun p => !(p.id == pid && p.sellerId == s)) ∧
      (deleteProductRoute true db s pid now).1.events.rows =
        db.events.rows.filter (fun e => !(sqlEqOpt e.productId (some pid)))) := by
  refine ⟨?_, ?_, ?_⟩
  · have hk : ¬ input.quantity ≤ LOW_STOCK_THRESHOLD := not_le.mpr hq
    simp [createProductRoute, emitEvent, checkAndEmitLowStockWarning, hk]
  · have hk : ¬ (applyUpdate u pu).quantity ≤ LOW_STOCK_THRESHOLD := not_le.mpr huq
    simp [updateProductRoute, hne, hfind, emitEvent, checkAndEmitLowStockWarning, hk]
  · simp [deleteProductRoute, hmatch, emitEvent]

/-- Witness for C1's amended statement on a one-product database,
exercising the create, update (rename to "W2") and delete routes. -/
theorem C1_amended_witness :
    ((10 : Int) > LOW_STOCK_THRESHOLD) ∧
    ((([⟨7, "s1", "W", "", 10, 10, "Other"⟩] : List Product).filter
        (fun p => p.id == 7 && p.sellerId == "s1")).isEmpty = false) ∧
    (UpdateInput.isEmpty ⟨some "W2", none, none, none, none⟩ = false) ∧
    (([⟨7, "s1", "W", "", 10, 10, "Other"⟩] : List Product).find?
        (fun q => q.id == 7 && q.sellerId == "s1") = some ⟨7, "s1", "W", "", 10, 10, "Other"⟩) ∧
    ((applyUpdate ⟨some "W2", none, none, none, none⟩
        ⟨7, "s1", "W", "", 10, 10, "Other"⟩).quantity > LOW_STOCK_THRESHOLD) ∧
    (((createProductRoute true false
          ⟨[⟨7, "s1", "W", "", 10, 10, "Other"⟩], 8, ⟨[], 1⟩, [], []⟩ "s1"
          ⟨"Widget", none, 10, 10, "Other"⟩ 0).2 =
        .created ⟨8, "s1", "Widget", "", 10, 10, "Other"⟩ ∧
      (createProductRoute true false
          ⟨[⟨7, "s1", "W", "", 10, 10, "Other"⟩], 8, ⟨[], 1⟩, [], []⟩ "s1"
          ⟨"Widget", none, 10, 10, "Other"⟩ 0).1.products =
        [⟨7, "s1", "W", "", 10, 10, "Other"⟩] ++ [⟨8, "s1", "Widget", "", 10, 10, "Other"⟩] ∧
      (createProductRoute true false
          ⟨[⟨7, "s1", "W", "", 10, 10, "Other"⟩], 8, ⟨[], 1⟩, [], []⟩ "s1"
          ⟨"Widget", none, 10, 10, "Other"⟩ 0).1.events = ⟨[], 1⟩) ∧
     ((updateProductRoute true false
          ⟨[⟨7, "s1", "W", "", 10, 10, "Other"⟩], 8, ⟨[], 1⟩, [], []⟩ "s1" 7
          ⟨some "W2", none, none, none, none⟩ 0).2 =
        .updated ⟨7, "s1", "W2", "", 10, 10, "Other"⟩ ∧
      (updateProductRoute true false
          ⟨[⟨7, "s1", "W", "", 10, 10, "Other"⟩], 8, ⟨[], 1⟩, [], []⟩ "s1" 7
          ⟨some "W2", none, none, none, none⟩ 0).1.products =
        ([⟨7, "s1", "W", "", 10, 10, "Other"⟩] : List Product).map
          (fun q => if q.id == 7 && q.sellerId == "s1"
                    then ⟨7, "s1", "W2", "", 10, 10, "Other"⟩ else q) ∧
      (updateProductRoute true false
          ⟨[⟨7, "s1", "W", "", 10, 10, "Other"⟩], 8, ⟨[], 1⟩, [], []⟩ "s1" 7
          ⟨some "W2", none, none, none, none⟩ 0).1.events = ⟨[], 1⟩) ∧
     ((deleteProductRoute true
          ⟨[⟨7, "s1", "W", "", 10, 10, "Other"⟩], 8, ⟨[], 1⟩, [], []⟩ "s1" 7 0).2 =
        .deleted 7 ∧
      (deleteProductRoute true
          ⟨[⟨7, "s1", "W", "", 10, 10, "Other"⟩], 8, ⟨[], 1⟩, [], []⟩ "s1" 7 0).1.products =
        ([⟨7, "s1", "W", "", 10, 10, "Other"⟩] : List Product).filter
          (fun p => !(p.id == 7 && p.sellerId == "s1")) ∧
      (deleteProductRoute true
          ⟨[⟨7, "s1", "W", "", 10, 10, "Other"⟩], 8, ⟨[], 1⟩, [], []⟩ "s1" 7 0).1.events.rows =
        ([] : List EventRow).filter (fun e => !(sqlEqOpt e.productId (some 7))))) :=
  ⟨by norm_num [LOW_STOCK_THRESHOLD], by decide, by decide, by decide,
    by norm_num [applyUpdate, LOW_STOCK_THRESHOLD],
    C1_amended_event_failure_swallowed
      ⟨[⟨7, "s1", "W", "", 10, 10, "Other"⟩], 8, ⟨[], 1⟩, [], []⟩ "s1"
      ⟨"Widget", none, 10, 10, "Other"⟩ 7 7 ⟨some "W2", none, none, none, none⟩
      ⟨7, "s1", "W", "", 10, 10, "Other"⟩ 0
      (by norm_num [LOW_STOCK_THRESHOLD]) (by decide) (by decide) (by decide)
      (by norm_num [applyUpdate, LOW_STOCK_THRESHOLD])⟩

/-- C3 fails on the code: with the product committed (quantity 3 ≤
threshold 5) and the `LowStockWarning` INSERT failing,
`checkAndEmitLowStockWarning` logs and RETHROWS, so POST /products
answers 500 even though the product row and its `ProductCreated` event
are already committed. -/
theorem C3_counterexample :
    (createProductRoute false true ⟨[], 1, ⟨[], 1⟩, [], []⟩ "s1"
        ⟨"Widget", none, 10, 3, "Other"⟩ 0).2
      = .errorResp 500 "Internal server error" ∧
    (createProductRoute false true ⟨[], 1, ⟨[], 1⟩, [], []⟩ "s1"
        ⟨"Widget", none, 10, 3, "Other"⟩ 0).1.products
      = [⟨1, "s1", "Widget", "", 10, 3, "Other"⟩] ∧
    ((createProductRoute false true ⟨[], 1, ⟨[], 1⟩, [], []⟩ "s1"
        ⟨"Widget", none, 10, 3, "Other"⟩ 0).1.events.rows.map EventRow.type)
      = ["ProductCreated"] :=
  ⟨rfl, rfl, rfl⟩

/-- C3 amended: for the create and update mutations alike, a failure
while emitting the secondary `LowStockWarning` event is logged and
rethrown, so the request fails with a 500 response; the
already-committed product change and its primary lifecycle event
(`ProductCreated` / `ProductUpdated`) persist (each statement was
autocommitted). -/
theorem C3_amended_lowstock_failure_rethrown (db : DB) (s : String)
    (input : CreateInput) (uid : Nat) (u : UpdateInput) (pu : Product) (now : Int)
    (hq : input.quantity ≤ LOW_STOCK_THRESHOLD)
    (hne : u.isEmpty = false)
    (hfind : db.products.find? (fun q => q.id == uid && q.sellerId == s) = some pu)
    (huq : (applyUpdate u pu).quantity ≤ LOW_STOCK_THRESHOLD) :
    ((createProductRoute false true db s input now).2
        = .errorResp 500 "Internal server error" ∧
      (createProductRoute false true db s input now).1.products =
        db.products ++ [⟨db.nextProductId, s, input.name, input.description.getD "",
          input.price, input.quantity, input.category⟩] ∧
      (createProductRoute false true db s input now).1.events.rows =
        db.events.rows ++ [⟨db.events.nextId, "ProductCreated", s, some db.nextProductId,
          .jobj [("product", productJson ⟨db.nextProductId, s, input.name,
            input.description.getD "", input.price, input.quantity, input.category⟩)],
          now⟩]) ∧
    ((updateProductRoute false true db s uid u now).2
        = .errorResp 500 "Internal server error" ∧
      (updateProductRoute false true db s uid u now).1.products =
        db.products.map
          (fun q => if q.id == uid && q.sellerId == s then applyUpdate u pu else q) ∧
      (updateProductRoute false true db s uid u now).1.events.rows =
        db.events.rows ++ [⟨db.events.nextId, "ProductUpdated", s,
          some (applyUpdate u pu).id,
          .jobj [("product", productJson (applyUpdate u pu))], now⟩]) := by
  constructor
  · simp [createProductRoute, emitEvent, checkAndEmitLowStockWarning, insertEvent, hq]
  · simp [updateProductRoute, hne, hfind, emitEvent, checkAndEmitLowStockWarning,
      insertEvent, huq]

/-- Witness for C3's amended statement: creating a quantity-3 product and
updating an existing product's quantity down to 3 (threshold 5), with the
low-stock INSERT failing in both cases. -/
theorem C3_amended_witness :
    ((3 : Int) ≤ LOW_STOCK_THRESHOLD) ∧
    (UpdateInput.isEmpty ⟨none, none, none, some 3, none⟩ = false) ∧
    (([⟨7, "s1", "W", "", 10, 10, "Other"⟩] : List Product).find?
        (fun q => q.id == 7 && q.sellerId == "s1") = some ⟨7, "s1", "W", "", 10, 10, "Other"⟩) ∧
    ((applyUpdate ⟨none, none, none, some 3, none⟩
        ⟨7, "s1", "W", "", 10, 10, "Other"⟩).quantity ≤ LOW_STOCK_THRESHOLD) ∧
    (((createProductRoute false true
          ⟨[⟨7, "s1", "W", "", 10, 10, "Other"⟩], 8, ⟨[], 1⟩, [], []⟩ "s1"
          ⟨"Widget", none, 10, 3, "Other"⟩ 0).2
        = .errorResp 500 "Internal server error" ∧
      (createProductRoute false true
          ⟨[⟨7, "s1", "W", "", 10, 10, "Other"⟩], 8, ⟨[], 1⟩, [], []⟩ "s1"
          ⟨"Widget", none, 10, 3, "Other"⟩ 0).1.products =
        [⟨7, "s1", "W", "", 10, 10, "Other"⟩] ++ [⟨8, "s1", "Widget", "", 10, 3, "Other"⟩] ∧
      (createProductRoute false true
          ⟨[⟨7, "s1", "W", "", 10, 10, "Other"⟩], 8, ⟨[], 1⟩, [], []⟩ "s1"
          ⟨"Widget", none, 10, 3, "Other"⟩ 0).1.events.rows =
        [] ++ [⟨1, "ProductCreated", "s1", some 8,
          .jobj [("product", productJson ⟨8, "s1", "Widget", "", 10, 3, "Other"⟩)], 0⟩]) ∧
     ((updateProductRoute false true
          ⟨[⟨7, "s1", "W", "", 10, 10, "Other"⟩], 8, ⟨[], 1⟩, [], []⟩ "s1" 7
          ⟨none, none, none, some 3, none⟩ 0).2
        = .errorResp 500 "Internal server error" ∧
      (updateProductRoute false true
          ⟨[⟨7, "s1", "W", "", 10, 10, "Other"⟩], 8, ⟨[], 1⟩, [], []⟩ "s1" 7
          ⟨none, none, none, some 3, none⟩ 0).1.products =
        ([⟨7, "s1", "W", "", 10, 10, "Other"⟩] : List Product).map
          (fun q => if q.id == 7 && q.sellerId == "s1"
                    then ⟨7, "s1", "W", "", 10, 3, "Other"⟩ else q) ∧
      (updateProductRoute false true
          ⟨[⟨7, "s1", "W", "", 10, 10, "Other"⟩], 8, ⟨[], 1⟩, [], []⟩ "s1" 7
          ⟨none, none, none, some 3, none⟩ 0).1.events.rows =
        [] ++ [⟨1, "ProductUpdated", "s1", some 7,
          .jobj [("product", productJson ⟨7, "s1", "W", "", 10, 3, "Other"⟩)], 0⟩])) :=
  ⟨by norm_num [LOW_STOCK_THRESHOLD], by decide, by decide,
    by norm_num [applyUpdate, LOW_STOCK_THRESHOLD],
    C3_amended_lowstock_failure_rethrown
      ⟨[⟨7, "s1", "W", "", 10, 10, "Other"⟩], 8, ⟨[], 1⟩, [], []⟩ "s1"
      ⟨"Widget", none, 10, 3, "Other"⟩ 7 ⟨none, none, none, some 3, none⟩
      ⟨7, "s1", "W", "", 10, 10, "Other"⟩ 0
      (by norm_num [LOW_STOCK_THRESHOLD]) (by decide) (by decide)
      (by norm_num [applyUpdate, LOW_STOCK_THRESHOLD])⟩

/-- C6 fails on the code: after the delete transaction commits (product 7
gone, its prior events deleted in-transaction), the handler inserts a
`ProductDeleted` event whose `product_id` is the deleted product's id —
the store then holds an event referencing a nonexistent product. -/
theorem C6_counterexample :
    (deleteProductRoute false
        ⟨[⟨7, "s1", "W", "", 10, 10, "Other"⟩], 8,
          ⟨[⟨1, "ProductCreated", "s1", some 7, .jnull, 0⟩], 2⟩, [], []⟩ "s1" 7 5).2
      = .deleted 7 ∧
    (deleteProductRoute false
        ⟨[⟨7, "s1", "W", "", 10, 10, "Other"⟩], 8,
          ⟨[⟨1, "ProductCreated", "s1", some 7, .jnull, 0⟩], 2⟩, [], []⟩ "s1" 7 5).1.products
      = [] ∧
    ((deleteProductRoute false
        ⟨[⟨7, "s1", "W", "", 10, 10, "Other"⟩], 8,
          ⟨[⟨1, "ProductCreated", "s1", some 7, .jnull, 0⟩], 2⟩, [], []⟩ "s1" 7 5).1.events.rows.map
        EventRow.productId)
      = [some 7] :=
  ⟨rfl, rfl, rfl⟩

/-- C6 amended: inside the delete transaction all of the product's event
rows are removed (by explicit DELETE statements — the `initSchema` events
table has no FK cascade), but after COMMIT the handler appends a
`ProductDeleted` event carrying the deleted product's id outside the
transaction, so the store ends up holding exactly that one event
referencing the now-nonexistent product. -/
theorem C6_amended_delete_then_tombstone (db : DB) (s : String) (pid : Nat) (now : Int)
    (hmatch : (db.products.filter (fun p => p.id == pid && p.sellerId == s)).isEmpty
      = false) :
    (deleteProductRoute false db s pid now).2 = .deleted pid ∧
    (deleteProductRoute false db s pid now).1.products =
      db.products.filter (fun p => !(p.id == pid && p.sellerId == s)) ∧
    (deleteProductRoute false db s pid now).1.events.rows =
      db.events.rows.filter (fun e => !(sqlEqOpt e.productId (some pid))) ++
        [⟨db.events.nextId, "ProductDeleted", s, some pid,
          .jobj [("productId", .jnum (Int.ofNat pid))], now⟩] := by
  simp [deleteProductRoute, emitEvent, insertEvent, hmatch]

/-- Witness for C6's amended statement on a one-product, one-event store. -/
theorem C6_amended_witness :
    ((([⟨7, "s1", "W", "", 10, 10, "Other"⟩] : List Product).filter
        (fun p => p.id == 7 && p.sellerId == "s1")).isEmpty = false) ∧
    ((deleteProductRoute false
        ⟨[⟨7, "s1", "W", "", 10, 10, "Other"⟩], 8,
          ⟨[⟨1, "ProductCreated", "s1", some 7, .jnull, 0⟩], 2⟩, [], []⟩ "s1" 7 5).2
        = .deleted 7 ∧
     (deleteProductRoute false
        ⟨[⟨7, "s1", "W", "", 10, 10, "Other"⟩], 8,
          ⟨[⟨1, "ProductCreated", "s1", some 7, .jnull, 0⟩], 2⟩, [], []⟩ "s1" 7 5).1.products =
      ([⟨7, "s1", "W", "", 10, 10, "Other"⟩] : List Product).filter
        (fun p => !(p.id == 7 && p.sellerId == "s1")) ∧
     (deleteProductRoute false
        ⟨[⟨7, "s1", "W", "", 10, 10, "Other"⟩], 8,
          ⟨[⟨1, "ProductCreated", "s1", some 7, .jnull, 0⟩], 2⟩, [], []⟩ "s1" 7 5).1.events.rows =
      ([⟨1, "ProductCreated", "s1", some 7, .jnull, 0⟩] : List EventRow).filter
          (fun e => !(sqlEqOpt e.productId (some 7))) ++
        [⟨2, "ProductDeleted", "s1", some 7, .jobj [("productId", .jnum (Int.ofNat 7))], 5⟩]) :=
  ⟨by decide,
    C6_amended_delete_then_tombstone
      ⟨[⟨7, "s1", "W", "", 10, 10, "Other"⟩], 8,
        ⟨[⟨1, "ProductCreated", "s1", some 7, .jnull, 0⟩], 2⟩, [], []⟩ "s1" 7 5 (by decide)⟩

lemma register_unregister_twice (clients : List Client) (c : Client)
    (hfresh : ∀ x ∈ clients, x.id ≠ c.id) :
    removeClient (clients ++ [c]) c = clients ∧
    removeClient (removeClient (clients ++ [c]) c) c = clients := by
  have hnp : ∀ x ∈ clients, ¬((x.id == c.id) = true) := fun x hx h =>
    hfresh x hx (beq_iff_eq.mp h)
  have h1 : removeClient (clients ++ [c]) c = clients := by
    unfold removeClient
    rw [List.eraseP_append_right _ hnp, List.eraseP_cons_of_pos (by simp),
      List.append_nil]
  refine ⟨h1, ?_⟩
  rw [h1]
  exact List.eraseP_of_forall_not hnp

/-- C7: registering a stream then unregistering it twice returns the
registry to its pre-registration contents (hence size); the second
`removeClient` finds no entry with the id and is a no-op. -/
theorem C7_idempotent_double_unregister (reg : Registry) (header query : Option String)
    (now : Int) (hfresh : ∀ x ∈ reg.clients, x.id < reg.nextClientId) :
    removeClient (openStream reg header query now).1.clients
        (openStream reg header query now).2 = reg.clients ∧
    removeClient (removeClient (openStream reg header query now).1.clients
        (openStream reg header query now).2)
      (openStream reg header query now).2 = reg.clients ∧
    (removeClient (removeClient (openStream reg header query now).1.clients
        (openStream reg header query now).2)
      (openStream reg header query now).2).length = reg.clients.length := by
  have h := register_unregister_twice reg.clients
    ⟨reg.nextClientId, resolveSellerId header query, now⟩
    (fun x hx => Nat.ne_of_lt (hfresh x hx))
  exact ⟨h.1, h.2, congrArg List.length h.2⟩

/-- Witness for C7 on a one-client registry. -/
theorem C7_witness :
    (∀ x ∈ (⟨[⟨1, "a", 0⟩], 2⟩ : Registry).clients, x.id < (⟨[⟨1, "a", 0⟩], 2⟩ : Registry).nextClientId) ∧
    (removeClient (openStream ⟨[⟨1, "a", 0⟩], 2⟩ none none 0).1.clients
        (openStream ⟨[⟨1, "a", 0⟩], 2⟩ none none 0).2 = [⟨1, "a", 0⟩] ∧
     removeClient (removeClient (openStream ⟨[⟨1, "a", 0⟩], 2⟩ none none 0).1.clients
        (openStream ⟨[⟨1, "a", 0⟩], 2⟩ none none 0).2)
       (openStream ⟨[⟨1, "a", 0⟩], 2⟩ none none 0).2 = [⟨1, "a", 0⟩] ∧
     (removeClient (removeClient (openStream ⟨[⟨1, "a", 0⟩], 2⟩ none none 0).1.clients
        (openStream ⟨[⟨1, "a", 0⟩], 2⟩ none none 0).2)
       (openStream ⟨[⟨1, "a", 0⟩], 2⟩ none none 0).2).length = ([⟨1, "a", 0⟩] : List Client).length) :=
  ⟨by decide, C7_idempotent_double_unregister ⟨[⟨1, "a", 0⟩], 2⟩ none none 0 (by decide)⟩

lemma id_not_mem_removeClient (clients : List Client) (c : Client) (hc : c ∈ clients)
    (hnd : (clients.map Client.id).Nodup) :
    c.id ∉ (removeClient clients c).map Client.id := by
  unfold removeClient
  induction clients with
  | nil => simp at hc
  | cons x xs ih =>
    rw [List.map_cons, List.nodup_cons] at hnd
    obtain ⟨hx, hxs⟩ := hnd
    by_cases h : x.id = c.id
    · rw [List.eraseP_cons_of_pos (by simp [h])]
      rw [← h]
      exact hx
    · rw [List.eraseP_cons_of_neg (by simp [h])]
      rcases List.mem_cons.mp hc with rfl | hc'
      · exact absurd rfl h
      · simp only [List.map_cons, List.mem_cons, not_or]
        exact ⟨fun hh => h hh.symm, ih hc' hxs⟩

/-- C5 fails on the code in its "transport is closed" half: a heartbeat
tick on a client 60 001 ms stale removes it from the registry but
performs no transport action at all — in particular nothing closes the
client's response stream (no code path in `sse/events.ts` calls
`res.end`). -/
theorem C5_counterexample :
    heartbeatTick true 60001 [⟨1, "s1", 0⟩] ⟨1, "s1", 0⟩ = ([], []) := by decide

/-- C5 amended: at the first heartbeat tick at which
`now - lastActivity > 60 s`, the subscription is unregistered (its entry
and timer removed), but its transport is NOT closed: the timeout branch
emits no action, and no heartbeat path ever emits `closeTransport`. -/
theorem C5_amended_unregister_without_close (writeOk : Bool) (now : Int)
    (clients : List Client) (c : Client) (hc : c ∈ clients)
    (hnd : (clients.map Client.id).Nodup)
    (htimeout : now - c.lastActivity > CLIENT_TIMEOUT) :
    (heartbeatTick writeOk now clients c).1 = removeClient clients c ∧
    c.id ∉ (heartbeatTick writeOk now clients c).1.map Client.id ∧
    (heartbeatTick writeOk now clients c).2 = [] ∧
    ∀ (w : Bool) (n : Int) (cls : List Client) (x : Client) (k : Nat),
      Action.closeTransport k ∉ (heartbeatTick w n cls x).2 := by
  have h1 : heartbeatTick writeOk now clients c = (removeClient clients c, []) := by
    simp [heartbeatTick, htimeout]
  refine ⟨by rw [h1], ?_, by rw [h1], ?_⟩
  · rw [h1]
    exact id_not_mem_removeClient clients c hc hnd
  · intro w n cls x k
    unfold heartbeatTick
    split
    · simp
    · split <;> simp

/-- Witness for C5's amended statement: a single client, 60 001 ms stale. -/
theorem C5_amended_witness :
    (⟨1, "s1", 0⟩ : Client) ∈ [(⟨1, "s1", 0⟩ : Client)] ∧
    (([(⟨1, "s1", 0⟩ : Client)].map Client.id).Nodup) ∧
    ((60001 : Int) - (0 : Int) > CLIENT_TIMEOUT) ∧
    ((heartbeatTick true 60001 [⟨1, "s1", 0⟩] ⟨1, "s1", 0⟩).1
        = removeClient [⟨1, "s1", 0⟩] ⟨1, "s1", 0⟩ ∧
      (1 : Nat) ∉ (heartbeatTick true 60001 [⟨1, "s1", 0⟩] ⟨1, "s1", 0⟩).1.map Client.id ∧
      (heartbeatTick true 60001 [⟨1, "s1", 0⟩] ⟨1, "s1", 0⟩).2 = [] ∧
      ∀ (w : Bool) (n : Int) (cls : List Client) (x : Client) (k : Nat),
        Action.closeTransport k ∉ (heartbeatTick w n cls x).2) :=
  ⟨by decide, by decide, by norm_num [CLIENT_TIMEOUT],
    C5_amended_unregister_without_close true 60001 [⟨1, "s1", 0⟩] ⟨1, "s1", 0⟩
      (by decide) (by decide) (by norm_num [CLIENT_TIMEOUT])⟩

/-- C8: a `LowStockWarning` event emitted by the Low-Stock Evaluator is
delivered reshaped as `{ type, timestamp, product: { id, name, price,
quantity, category } }` with `product.quantity` equal to the product's
quantity at emission time, while any other event type is passed through
under its own event name with the full stored row document. -/
theorem C8_lowstock_reshaped_frame (db : DB) (prod : Product) (s : String) (now : Int)
    (nowIso : String) (p : NotifPayload)
    (hq : prod.quantity ≤ LOW_STOCK_THRESHOLD)
    (hp : p.type ≠ "LowStockWarning") :
    (∃ e : EventRow,
      checkAndEmitLowStockWarning false db prod s now =
        .ok { db with events := ⟨db.events.rows ++ [e], db.events.nextId + 1⟩ } ∧
      e.type = "LowStockWarning" ∧ e.productId = some prod.id ∧
      formatFrame nowIso e.toNotif = ("LowStockWarning",
        .jobj [("type", .jstr "LowStockWarning"), ("timestamp", .jstr nowIso),
          ("product", .jobj [("id", .jnum (Int.ofNat prod.id)),
            ("name", .jstr prod.name), ("price", .jnum prod.price),
            ("quantity", .jnum prod.quantity), ("category", .jstr prod.category)])])) ∧
    formatFrame nowIso p = (p.type, rowJson p) := by
  constructor
  · refine ⟨⟨db.events.nextId, "LowStockWarning", s, some prod.id,
      .jobj [("id", .jnum (Int.ofNat prod.id)), ("name", .jstr prod.name),
        ("product_name", .jstr prod.name), ("current_quantity", .jnum prod.quantity),
        ("threshold", .jnum LOW_STOCK_THRESHOLD), ("category", .jstr prod.category),
        ("price", .jnum prod.price)], now⟩, ?_, rfl, rfl, rfl⟩
    simp [checkAndEmitLowStockWarning, insertEvent, hq]
  · have hb : (p.type == "LowStockWarning") = false := beq_eq_false_iff_ne.mpr hp
    simp [formatFrame, hb]

/-- Witness for C8 at scenario B: quantity drops to 3 with threshold 5;
the delivered frame carries `product.quantity = 3`.  The passthrough half
is instantiated at a `ProductCreated` payload. -/
theorem C8_witness :
    ((3 : Int) ≤ LOW_STOCK_THRESHOLD) ∧
    ("ProductCreated" ≠ "LowStockWarning") ∧
    ((∃ e : EventRow,
      checkAndEmitLowStockWarning false ⟨[], 1, ⟨[], 1⟩, [], []⟩
          ⟨7, "s1", "W", "", 10, 3, "Other"⟩ "s1" 0 =
        .ok { (⟨[], 1, ⟨[], 1⟩, [], []⟩ : DB) with events := ⟨[] ++ [e], 1 + 1⟩ } ∧
      e.type = "LowStockWarning" ∧ e.productId = some 7 ∧
      formatFrame "TS" e.toNotif = ("LowStockWarning",
        .jobj [("type", .jstr "LowStockWarning"), ("timestamp", .jstr "TS"),
          ("product", .jobj [("id", .jnum (Int.ofNat 7)),
            ("name", .jstr "W"), ("price", .jnum 10),
            ("quantity", .jnum 3), ("category", .jstr "Other")])])) ∧
     formatFrame "TS" ⟨9, "ProductCreated", "s1", some 7, .jnull, 0⟩ =
       ("ProductCreated", rowJson ⟨9, "ProductCreated", "s1", some 7, .jnull, 0⟩)) :=
  ⟨by norm_num [LOW_STOCK_THRESHOLD], by decide,
    C8_lowstock_reshaped_frame ⟨[], 1, ⟨[], 1⟩, [], []⟩ ⟨7, "s1", "W", "", 10, 3, "Other"⟩
      "s1" 0 "TS" ⟨9, "ProductCreated", "s1", some 7, .jnull, 0⟩
      (by norm_num [LOW_STOCK_THRESHOLD]) (by decide)⟩

/-- C10: a stream request with neither an `x-seller-id` header nor a
`seller_id` query parameter is not rejected: it is registered under the
literal seller id `"demo-seller"`, and (with writes succeeding) the
broadcaster delivers a notification to that subscription iff the
notification's seller id is `"demo-seller"`. -/
theorem C10_default_demo_seller (reg : Registry) (now : Int) (nowIso : String)
    (p : NotifPayload)
    (hfresh : ∀ x ∈ reg.clients, x.id < reg.nextClientId) :
    (openStream reg none none now).2.sellerId = "demo-seller" ∧
    (openStream reg none none now).2 ∈ (openStream reg none none now).1.clients ∧
    ((∃ f, ((openStream reg none none now).2.id, f) ∈
        (handleNotification (fun _ => true) nowIso now
          (openStream reg none none now).1.clients p).2)
      ↔ p.seller_id = "demo-seller") := by
  refine ⟨rfl, List.mem_append.mpr (Or.inr (List.mem_singleton.mpr rfl)), ?_, ?_⟩
  · rintro ⟨f, hf⟩
    simp only [handleNotification, List.mem_map, List.mem_filter] at hf
    rcases hf with ⟨y, ⟨⟨hy, hysell⟩, _⟩, hye⟩
    have hyid : y.id = reg.nextClientId := congrArg Prod.fst hye
    rcases List.mem_append.mp hy with hy' | hy'
    · exact absurd (hyid ▸ hfresh y hy') (lt_irrefl _)
    · rcases List.mem_singleton.mp hy' with rfl
      exact (beq_iff_eq.mp hysell).symm
  · intro h
    refine ⟨formatFrame nowIso p, ?_⟩
    simp only [handleNotification, List.mem_map, List.mem_filter]
    exact ⟨⟨reg.nextClientId, "demo-seller", now⟩,
      ⟨⟨List.mem_append.mpr (Or.inr (List.mem_singleton.mpr rfl)),
        beq_iff_eq.mpr h.symm⟩, trivial⟩, rfl⟩

/-- Witness for C10 on a one-client registry and a `"demo-seller"`
notification. -/
theorem C10_witness :
    (∀ x ∈ (⟨[⟨1, "a", 0⟩], 2⟩ : Registry).clients, x.id < (⟨[⟨1, "a", 0⟩], 2⟩ : Registry).nextClientId) ∧
    ((openStream ⟨[⟨1, "a", 0⟩], 2⟩ none none 0).2.sellerId = "demo-seller" ∧
     (openStream ⟨[⟨1, "a", 0⟩], 2⟩ none none 0).2 ∈ (openStream ⟨[⟨1, "a", 0⟩], 2⟩ none none 0).1.clients ∧
     ((∃ f, ((openStream ⟨[⟨1, "a", 0⟩], 2⟩ none none 0).2.id, f) ∈
        (handleNotification (fun _ => true) "TS" 0
          (openStream ⟨[⟨1, "a", 0⟩], 2⟩ none none 0).1.clients
          ⟨3, "ProductCreated", "demo-seller", some 7, .jnull, 0⟩).2)
      ↔ NotifPayload.seller_id ⟨3, "ProductCreated", "demo-seller", some 7, .jnull, 0⟩ = "demo-seller")) :=
  ⟨by decide,
    C10_default_demo_seller ⟨[⟨1, "a", 0⟩], 2⟩ 0 "TS"
      ⟨3, "ProductCreated", "demo-seller", some 7, .jnull, 0⟩ (by decide)⟩

lemma handleNotification_sent_src (writeOk : Nat → Bool) (nowIso : String) (now : Int)
    (clients : List Client) (p : NotifPayload) (cid : Nat) (f : String × JVal)
    (hf : (cid, f) ∈ (handleNotification writeOk nowIso now clients p).2) :
    ∃ y ∈ clients, y.id = cid ∧ y.sellerId = p.seller_id := by
  simp only [handleNotification, List.mem_map, List.mem_filter] at hf
  rcases hf with ⟨y, ⟨⟨hy, hysell⟩, _⟩, hye⟩
  exact ⟨y, hy, congrArg Prod.fst hye, beq_iff_eq.mp hysell⟩

lemma foldl_removeClient_subset (ds : List Client) :
    ∀ l : List Client, ds.foldl removeClient l ⊆ l := by
  induction ds with
  | nil =>
    intro l x hx
    simpa using hx
  | cons d ds ih =>
    intro l x hx
    rw [List.foldl_cons] at hx
    exact List.eraseP_subset _ (ih (removeClient l d) hx)

lemma handleNotification_clients_src (writeOk : Nat → Bool) (nowIso : String) (now : Int)
    (clients : List Client) (p : NotifPayload) (x : Client)
    (hx : x ∈ (handleNotification writeOk nowIso now clients p).1) :
    ∃ y ∈ clients, x.id = y.id ∧ x.sellerId = y.sellerId := by
  simp only [handleNotification] at hx
  have hx' : x ∈ clients.map (fun c => if c.sellerId == p.seller_id && writeOk c.id
      then { c with lastActivity := now } else c) :=
    foldl_removeClient_subset _ _ hx
  rcases List.mem_map.mp hx' with ⟨y, hy, hyx⟩
  refine ⟨y, hy, ?_, ?_⟩ <;>
    (rw [← hyx]; by_cases h : (y.sellerId == p.seller_id && writeOk y.id) = true <;> simp [h])

/-- C4: for any registry (distinct client ids) and any sequence of
channel notifications, a subscription registered for seller A is never
written a notification whose seller id differs from A — the broadcaster
fans out only to clients passing `c.sellerId === payload.seller_id`. -/
theorem C4_partition_isolation (writeOk : Nat → Bool) (nowIso : String) (now : Int)
    (clients : List Client) (hnd : (clients.map Client.id).Nodup)
    (c : Client) (hc : c ∈ clients) (ps : List NotifPayload) (p : NotifPayload)
    (hdel : (c.id, p) ∈ (dispatchAll writeOk nowIso now clients ps).2) :
    p.seller_id = c.sellerId := by
  suffices h : ∀ (qs : List NotifPayload) (cls : List Client),
      (∀ x ∈ cls, ∃ y ∈ clients, x.id = y.id ∧ x.sellerId = y.sellerId) →
      ∀ q, (c.id, q) ∈ (dispatchAll writeOk nowIso now cls qs).2 →
        q.seller_id = c.sellerId by
    exact h ps clients (fun x hx => ⟨x, hx, rfl, rfl⟩) p hdel
  intro qs
  induction qs with
  | nil =>
    intro cls _ q hq
    simp [dispatchAll] at hq
  | cons a as ih =>
    intro cls hinv q hq
    have hq' : (c.id, q) ∈
        ((handleNotification writeOk nowIso now cls a).2.map (fun w => (w.1, a)) ++
          (dispatchAll writeOk nowIso now
            (handleNotification writeOk nowIso now cls a).1 as).2) := hq
    rcases List.mem_append.mp hq' with hmem | hmem
    · rcases List.mem_map.mp hmem with ⟨w, hw, hwe⟩
      have hw1 : w.1 = c.id := congrArg Prod.fst hwe
      have ha : a = q := congrArg Prod.snd hwe
      rcases handleNotification_sent_src writeOk nowIso now cls a w.1 w.2
        (by simpa using hw) with ⟨y, hy, hyid, hysell⟩
      rcases hinv y hy with ⟨y0, hy0, hid0, hsell0⟩
      have hy0c : y0 = c :=
        List.inj_on_of_nodup_map hnd hy0 hc (by rw [← hid0, hyid, hw1])
      calc q.seller_id = a.seller_id := by rw [ha]
        _ = y.sellerId := hysell.symm
        _ = y0.sellerId := hsell0
        _ = c.sellerId := by rw [hy0c]
    · refine ih _ (fun x hx => ?_) q hmem
      rcases handleNotification_clients_src writeOk nowIso now cls a x hx with
        ⟨y, hy, h1, h2⟩
      rcases hinv y hy with ⟨y0, hy0, h3, h4⟩
      exact ⟨y0, hy0, h1.trans h3, h2.trans h4⟩

/-- Witness for C4: one subscriber for seller "A", one notification with
seller id "A", delivered to it. -/
theorem C4_witness :
    (([(⟨1, "A", 0⟩ : Client)].map Client.id).Nodup) ∧
    ((⟨1, "A", 0⟩ : Client) ∈ [(⟨1, "A", 0⟩ : Client)]) ∧
    ((((⟨1, "A", 0⟩ : Client).id,
        (⟨5, "ProductCreated", "A", none, .jnull, 0⟩ : NotifPayload)) ∈
      (dispatchAll (fun _ => true) "TS" 0 [⟨1, "A", 0⟩]
        [⟨5, "ProductCreated", "A", none, .jnull, 0⟩]).2)) ∧
    NotifPayload.seller_id ⟨5, "ProductCreated", "A", none, .jnull, 0⟩
      = Client.sellerId ⟨1, "A", 0⟩ :=
  ⟨by decide, by decide, List.mem_singleton.mpr rfl,
    C4_partition_isolation (fun _ => true) "TS" 0 [⟨1, "A", 0⟩] (by decide)
      ⟨1, "A", 0⟩ (by decide) [⟨5, "ProductCreated", "A", none, .jnull, 0⟩]
      ⟨5, "ProductCreated", "A", none, .jnull, 0⟩ (List.mem_singleton.mpr rfl)⟩

end Amused
